import Mathlib

/-!
Verification of the build-process orchestration and artifact-resolution
engine in `src/extension/cargo.ts`.

The TypeScript source is shallowly embedded: each function below is a
direct translation of the corresponding source function.  JavaScript
values that may be `undefined` (such as `kind[i]` for an out-of-range
index, an optional filter field, or a possibly-absent `executable`
field) are modelled with `Option`.  Callback-driven code is modelled by
functions returning the list of callback events it produces, and the
in-place array mutation in `getProgramFromCargoConfig` is modelled by
explicit state passing of the mutable array's value.
-/

/-- `CompilationArtifact` (cargo.ts lines 26-30).  The `kind` field is
`message.target.kind[idx]` in the source, which is `undefined` when the
index is out of range, hence `Option String`. -/
structure CompilationArtifact where
  fileName : String
  name : String
  kind : Option String
deriving DecidableEq

/-- The optional `filter` member of `CargoConfig` (cargo.ts lines 20-23):
both fields are optional. -/
structure ArtifactFilter where
  name : Option String
  kind : Option String
deriving DecidableEq

/-- The two failure modes of `getProgramFromArtifacts`
(cargo.ts lines 124-128). -/
inductive ResolveError where
  | noMatch
  | ambiguousMatch
deriving DecidableEq

/-- The filter predicate applied inside `getProgramFromArtifacts`
(cargo.ts lines 110-116): a set filter field that differs from the
artifact's field rejects the artifact; otherwise it is kept. -/
def artifactPasses (f : ArtifactFilter) (a : CompilationArtifact) : Bool :=
  if f.name.isSome ∧ some a.name ≠ f.name then false
  else if f.kind.isSome ∧ a.kind ≠ f.kind then false
  else true

/-- `Cargo.getProgramFromArtifacts` (cargo.ts lines 103-131): apply the
optional filter, then demand exactly one survivor and return its file
name; zero survivors is a no-match error and two or more survivors is an
ambiguous-match error. -/
def getProgramFromArtifacts (artifacts : List CompilationArtifact)
    (filter : Option ArtifactFilter) : Except ResolveError String :=
  let filtered := match filter with
    | some f => artifacts.filter (artifactPasses f)
    | none => artifacts
  match filtered with
  | [] => .error .noMatch
  | a :: rest => if rest ≠ [] then .error .ambiguousMatch else .ok a.fileName

/-- Spec-side survivor predicate, following the claim's words: an
artifact survives exactly when every filter field that is set equals the
corresponding artifact field by string equality, and an absent filter
keeps everything. -/
def specFilterKeeps (filter : Option ArtifactFilter) (a : CompilationArtifact) : Bool :=
  match filter with
  | none => true
  | some f =>
    (match f.name with | none => true | some n => a.name == n) &&
    (match f.kind with | none => true | some k => a.kind == some k)

/-- JavaScript `String.prototype.startsWith`, modelled character-wise so
that it evaluates inside the kernel. -/
def strStartsWith (s pre : String) : Bool :=
  pre.data.isPrefixOf s.data

/-- JavaScript `String.prototype.endsWith`, modelled character-wise so
that it evaluates inside the kernel. -/
def strEndsWith (s suf : String) : Bool :=
  suf.data.isSuffixOf s.data

/-! ## Compiler messages and artifact collection (`getCargoArtifacts`) -/

/-- The `target` member of a compiler-artifact message: fields `name`,
`kind` and `crate_types` are the ones `getCargoArtifacts` reads
(cargo.ts lines 145-163). -/
structure ArtifactTarget where
  name : String
  kind : List String
  crate_types : List String
deriving DecidableEq

/-- The `profile` member of a compiler-artifact message; only its `test`
flag is read (cargo.ts line 147). -/
structure CargoProfile where
  test : Bool
deriving DecidableEq

/-- The `executable`/`filenames` part of a compiler-artifact message
(cargo.ts lines 148-166): `executable` may be a string, `null`, or
absent (`undefined`); in the last case the old-schema `filenames` list
is consulted. -/
inductive ExecutableInfo where
  | exe (path : String)
  | exeNull
  | filenames (files : List String)
deriving DecidableEq

/-- A parsed compiler-artifact message, restricted to the fields the
source reads. -/
structure ArtifactMessage where
  target : ArtifactTarget
  profile : CargoProfile
  executable : ExecutableInfo
deriving DecidableEq

/-- A parsed JSON message from cargo's stdout, keyed by its `reason`
discriminator (cargo.ts lines 144 and 168): `compiler-artifact`,
`compiler-message`, or anything else. -/
inductive CargoMessage where
  | compilerArtifact (m : ArtifactMessage)
  | compilerMessage (rendered : String)
  | otherReason
deriving DecidableEq

/-- The old-schema loop of `getCargoArtifacts` (cargo.ts lines 157-165):
iterate over `filenames` with index `i`, skip entries ending in `.dSYM`,
and pair each remaining file with `target.kind[i]`. -/
def oldSchemaArtifacts (tname : String) (kinds : List String) :
    Nat → List String → List CompilationArtifact
  | _, [] => []
  | i, f :: fs =>
    if strEndsWith f ".dSYM" then oldSchemaArtifacts tname kinds (i + 1) fs
    else ⟨f, tname, kinds.get? i⟩ :: oldSchemaArtifacts tname kinds (i + 1) fs

/-- The artifacts contributed by one compiler-artifact message
(cargo.ts lines 144-167).  Note the source computes `isBinary` from
`target.crate_types` and `isBuildScript` from `target.kind`. -/
def artifactMessageArtifacts (m : ArtifactMessage) : List CompilationArtifact :=
  let isBinary := m.target.crate_types.contains "bin"
  let isBuildScript := m.target.kind.contains "custom-build"
  if (isBinary && !isBuildScript) || m.profile.test then
    match m.executable with
    | .exe path => [⟨path, m.target.name, m.target.kind.get? 0⟩]
    | .exeNull => []
    | .filenames files => oldSchemaArtifacts m.target.name m.target.kind 0 files
  else []

/-- Artifacts contributed by one parsed stdout message: only
compiler-artifact messages contribute (cargo.ts lines 144-170). -/
def messageArtifacts : CargoMessage → List CompilationArtifact
  | .compilerArtifact m => artifactMessageArtifacts m
  | .compilerMessage _ => []
  | .otherReason => []

/-- Diagnostic text forwarded by one parsed stdout message
(cargo.ts lines 168-170). -/
def messageDiagnostics : CargoMessage → List String
  | .compilerMessage rendered => [rendered]
  | _ => []

/-- The accumulation in `getCargoArtifacts` over the whole message
stream, in order (cargo.ts lines 140-173). -/
def collectArtifacts (msgs : List CargoMessage) : List CompilationArtifact :=
  msgs.flatMap messageArtifacts

/-! ## Stdout line handling in `runCargo` -/

/-- A callback invocation the `readline` line handler of `runCargo`
could make: delivering a parsed JSON object to `onStdoutJson`, or
forwarding text to a diagnostic callback.  (The handler never calls a
diagnostic callback; the constructor exists so that the absence of such
a call is expressible.) -/
inductive StdoutCallback where
  | stdoutJson (m : CargoMessage)
  | diagnostic (s : String)
deriving DecidableEq

/-- The `rl.on` line handler of `runCargo` (cargo.ts lines 307-318), as
the list of callback invocations one raw stdout line produces.  `parse`
stands for `JSON.parse`, returning `none` when parsing throws; in that
case the failure is logged via `console.error` and the handler returns.
A line that does not start with an open brace produces no callback at
all. -/
def lineCallbacks (parse : String → Option CargoMessage) (line : String) :
    List StdoutCallback :=
  if strStartsWith line "\x7b" then
    match parse line with
    | some json => [.stdoutJson json]
    | none => []
  else []

/-- The JSON object (if any) one raw stdout line delivers to
`onStdoutJson` (cargo.ts lines 307-318). -/
def lineJson (parse : String → Option CargoMessage) (line : String) :
    Option CargoMessage :=
  if strStartsWith line "\x7b" then parse line else none

/-- The stream of parsed JSON objects delivered to `onStdoutJson` over a
whole run, in order. -/
def stdoutJsonMessages (parse : String → Option CargoMessage)
    (lines : List String) : List CargoMessage :=
  lines.filterMap (lineJson parse)

/-! ## Argument-list preparation in `getProgramFromCargoConfig` -/

/-- JavaScript `Array.prototype.indexOf` scanning from position `i`:
index of the first occurrence, or `none` (JS `-1`). -/
def jsIndexOfAux (x : String) : List String → Nat → Option Nat
  | [], _ => none
  | a :: as, i => if a == x then some i else jsIndexOfAux x as (i + 1)

/-- The splice in `getProgramFromCargoConfig` (cargo.ts lines 57-59):
find the first `--` argument and insert `--message-format=json` and
`--color=always` before it, or append them at the end when there is no
`--`. -/
def insertCargoFlags (cargoArgs : List String) : List String :=
  let pos := (jsIndexOfAux "--" cargoArgs 0).getD cargoArgs.length
  cargoArgs.take pos ++ ["--message-format=json", "--color=always"] ++ cargoArgs.drop pos

/-- The observable effect of the pty `open` callback in
`getProgramFromCargoConfig` (cargo.ts lines 53-67) on the caller's
argument array.  In the source, `let cargoArgs = taskDef.args` aliases
the caller's array, `cargoArgs.splice(...)` mutates that array in
place, and the subsequent call `this.getCargoArtifacts(taskDef.args,
...)` reads the same (now mutated) array.  The mutable array is modelled
by explicit state passing: `taskArgsFinal` is the value of the
`taskDef.args` array after `open` has run. -/
structure OpenEffects where
  taskArgsFinal : List String
  argsPassedToGetCargoArtifacts : List String
deriving DecidableEq

def openStep (taskDefArgs : List String) : OpenEffects :=
  let spliced := insertCargoFlags taskDefArgs
  { taskArgsFinal := spliced, argsPassedToGetCargoArtifacts := spliced }

/-! ## Launch-configuration synthesis (`getLaunchConfigs`) -/

/-- The `cargo` member of a synthesized debug configuration
(cargo.ts lines 223-226 and 230-231): `cwd` is set only when a
directory override was supplied. -/
structure CargoSection where
  args : List String
  filter : ArtifactFilter
  cwd : Option String
deriving DecidableEq

/-- A debug configuration as built by `getLaunchConfigs`: either the
built-in default (which has a `program` and no `cargo` member,
cargo.ts lines 181-188) or a synthesized one (which has a `cargo`
member and no `program`, cargo.ts lines 219-229). -/
structure DebugConfiguration where
  type : String
  request : String
  name : String
  program : Option String
  cargo : Option CargoSection
  args : List String
  cwd : String
deriving DecidableEq

/-- `DEFAULT_LAUNCH_CONFIGS` (cargo.ts lines 181-188). -/
def DEFAULT_LAUNCH_CONFIGS : List DebugConfiguration :=
  [{ type := "lldb", request := "launch", name := "Debug",
     program := some "$\x7bworkspaceFolder\x7d/<executable file>",
     cargo := none, args := [], cwd := "$\x7bworkspaceFolder\x7d" }]

/-- The local helper `addConfig` (cargo.ts lines 218-233): scope the
build arguments to the owning package and attach the filter; `cargo.cwd`
is set only when a directory override was supplied. -/
def addConfig (pkgName : String) (directory : Option String) (name : String)
    (cargo_args : List String) (filter : ArtifactFilter) : DebugConfiguration :=
  { type := "lldb", request := "launch", name := name,
    program := none,
    cargo := some { args := cargo_args ++ ["--package=" ++ pkgName],
                    filter := filter, cwd := directory },
    args := [], cwd := "$\x7bworkspaceFolder\x7d" }

/-- The library-family case labels of the kind switch
(cargo.ts lines 239-243). -/
def isLibKind (kind : String) : Bool :=
  kind == "lib" || kind == "rlib" || kind == "staticlib" || kind == "dylib" ||
    kind == "cstaticlib"

/-- The descriptor emitted for a library-family kind
(cargo.ts lines 245-247). -/
def libTestConfig (pkgName : String) (directory : Option String)
    (targetName : String) : DebugConfiguration :=
  addConfig pkgName directory ("Debug unit tests in library \x27" ++ targetName ++ "\x27")
    ["test", "--no-run", "--lib"] ⟨some targetName, some "lib"⟩

/-- The kind label used for `bin`/`example` targets (cargo.ts line 255). -/
def prettyBinExampleKind (kind : String) : String :=
  if kind == "bin" then "executable" else kind

/-- The kind label used for `bench`/`test` targets (cargo.ts line 268). -/
def prettyBenchTestKind (kind : String) : String :=
  if kind == "bench" then "benchmark"
  else if kind == "test" then "integration test" else kind

/-- One iteration of the kind switch (cargo.ts lines 237-274): given the
current `libAdded` flag, the configurations pushed for this kind string
and the updated flag. -/
def configsForKind (pkgName : String) (directory : Option String) (targetName : String)
    (kind : String) (libAdded : Bool) : List DebugConfiguration × Bool :=
  if isLibKind kind then
    if !libAdded then ([libTestConfig pkgName directory targetName], true)
    else ([], libAdded)
  else if kind == "bin" || kind == "example" then
    ([addConfig pkgName directory
        ("Debug " ++ prettyBinExampleKind kind ++ " \x27" ++ targetName ++ "\x27")
        ["build", "--" ++ kind ++ "=" ++ targetName] ⟨some targetName, some kind⟩,
      addConfig pkgName directory
        ("Debug unit tests in " ++ prettyBinExampleKind kind ++ " \x27" ++ targetName ++ "\x27")
        ["test", "--no-run", "--" ++ kind ++ "=" ++ targetName] ⟨some targetName, some kind⟩],
     libAdded)
  else if kind == "bench" || kind == "test" then
    ([addConfig pkgName directory
        ("Debug " ++ prettyBenchTestKind kind ++ " \x27" ++ targetName ++ "\x27")
        ["test", "--no-run", "--" ++ kind ++ "=" ++ targetName] ⟨some targetName, some kind⟩],
     libAdded)
  else ([], libAdded)

/-- The loop over one target's kind list, threading the mutable
`libAdded` flag (cargo.ts lines 236-275). -/
def targetConfigsAux (pkgName : String) (directory : Option String) (targetName : String) :
    List String → Bool → List DebugConfiguration
  | [], _ => []
  | kind :: rest, libAdded =>
    (configsForKind pkgName directory targetName kind libAdded).1 ++
      targetConfigsAux pkgName directory targetName rest
        (configsForKind pkgName directory targetName kind libAdded).2

/-- All configurations synthesized for one target: `libAdded` starts out
false (cargo.ts line 236). -/
def targetConfigs (pkgName : String) (directory : Option String) (targetName : String)
    (kinds : List String) : List DebugConfiguration :=
  targetConfigsAux pkgName directory targetName kinds false

/-- A target of the metadata document: `name` and `kind` are the fields
read (cargo.ts lines 235-274). -/
structure CargoTarget where
  name : String
  kind : List String
deriving DecidableEq

/-- A package of the metadata document. -/
structure CargoPackage where
  name : String
  targets : List CargoTarget
deriving DecidableEq

/-- The metadata document produced by the metadata invocation. -/
structure CargoMetadata where
  packages : List CargoPackage
deriving DecidableEq

/-- The synthesis loop over the metadata document
(cargo.ts lines 216-278). -/
def getLaunchConfigsFromMetadata (metadata : CargoMetadata)
    (directory : Option String) : List DebugConfiguration :=
  metadata.packages.flatMap (fun pkg =>
    pkg.targets.flatMap (fun t => targetConfigs pkg.name directory t.name t.kind))

/-- How the metadata run of `runCargo` ended (cargo.ts lines 192-208):
either the spawn failed before the process ran (the `error` event; the
string is the error's `code` field, e.g. `ENOENT`), or the process
exited (`exitCode` is `none` for the JS `null` exit code of a
signal-killed process) with `metadata` holding the last JSON object
delivered, if any. -/
inductive MetadataRunOutcome where
  | spawnFailure (code : String)
  | exited (exitCode : Option Int) (metadata : Option CargoMetadata)

/-- The failures `getLaunchConfigs` can propagate. -/
inductive LaunchConfigsError where
  | spawnFailed (code : String)
  | noMetadata
deriving DecidableEq

/-- `Cargo.getLaunchConfigs` (cargo.ts lines 180-279): an `ENOENT`
spawn failure or a non-zero exit code falls back to the default
configurations; any other spawn failure is rethrown; a zero exit with no
metadata payload is a hard error; otherwise the configurations are
synthesized from the metadata document. -/
def getLaunchConfigs (outcome : MetadataRunOutcome) (directory : Option String) :
    Except LaunchConfigsError (List DebugConfiguration) :=
  match outcome with
  | .spawnFailure code =>
    if code == "ENOENT" then .ok DEFAULT_LAUNCH_CONFIGS
    else .error (.spawnFailed code)
  | .exited exitCode metadata =>
    if exitCode ≠ some 0 then .ok DEFAULT_LAUNCH_CONFIGS
    else match metadata with
      | none => .error .noMetadata
      | some md => .ok (getLaunchConfigsFromMetadata md directory)

/-- A descriptor is a library-unit-test descriptor exactly when its
artifact filter carries the kind "lib"; only the library branch of the
kind switch produces such a filter (cargo.ts line 247). -/
def isLibraryTestDescriptor (c : DebugConfiguration) : Bool :=
  match c.cargo with
  | some sec => sec.filter.kind == some "lib"
  | none => false

theorem artifactPasses_eq_specFilterKeeps (f : ArtifactFilter) (a : CompilationArtifact) :
    artifactPasses f a = specFilterKeeps (some f) a := by
  rcases f with ⟨fn, fk⟩
  rcases fn with _ | n
  · rcases fk with _ | k
    · simp [artifactPasses, specFilterKeeps]
    · by_cases hk : a.kind = some k <;> simp [artifactPasses, specFilterKeeps, hk]
  · rcases fk with _ | k
    · by_cases hn : a.name = n <;> simp [artifactPasses, specFilterKeeps, hn]
    · by_cases hn : a.name = n <;> by_cases hk : a.kind = some k <;>
        simp [artifactPasses, specFilterKeeps, hn, hk]

example : getProgramFromArtifacts
    [⟨"/t/demo", "demo", some "bin"⟩, ⟨"/t/demo_tests", "demo_tests", some "test"⟩]
    (some ⟨some "demo", none⟩) = .ok "/t/demo" := by rfl

example : getProgramFromArtifacts
    [⟨"/t/demo", "demo", some "bin"⟩, ⟨"/t/demo_tests", "demo_tests", some "test"⟩]
    none = .error .ambiguousMatch := by rfl

example : getProgramFromArtifacts [] none = .error .noMatch := by rfl

example : (strEndsWith "foo.dSYM" ".dSYM") = true := by decide

example : (strStartsWith "\x7b\x22reason\x22" "\x7b") = true := by decide

example : artifactMessageArtifacts ⟨⟨"foo", ["bin"], ["bin"]⟩, ⟨false⟩, .exe "/p/target/debug/foo"⟩
    = [⟨"/p/target/debug/foo", "foo", some "bin"⟩] := by decide

example : artifactMessageArtifacts ⟨⟨"foo", ["custom-build"], ["bin"]⟩, ⟨false⟩, .exe "/p/x"⟩
    = [] := by decide

example : artifactMessageArtifacts ⟨⟨"foo", ["bin", "bin"], ["bin"]⟩, ⟨false⟩,
    .filenames ["/p/foo", "/p/foo.dSYM"]⟩ = [⟨"/p/foo", "foo", some "bin"⟩] := by decide

/-- C1: resolving a program from an artifact list keeps an artifact
exactly when every set filter field equals the corresponding artifact
field by string equality (an absent filter keeps everything); it returns
the file path of the unique survivor, fails with the no-match error when
zero artifacts survive, and fails with the ambiguous-match error when
two or more survive — never silently picking one. -/
theorem getProgramFromArtifacts_resolution (artifacts : List CompilationArtifact)
    (filter : Option ArtifactFilter) :
    getProgramFromArtifacts artifacts filter =
      match artifacts.filter (specFilterKeeps filter) with
      | [] => .error .noMatch
      | [a] => .ok a.fileName
      | _ :: _ :: _ => .error .ambiguousMatch := by
  have hf : (match filter with
      | some f => artifacts.filter (artifactPasses f)
      | none => artifacts) = artifacts.filter (specFilterKeeps filter) := by
    rcases filter with _ | f
    · exact (List.filter_eq_self.mpr (fun a _ => rfl)).symm
    · exact List.filter_congr (fun a _ => artifactPasses_eq_specFilterKeeps f a)
  show (match (match filter with
      | some f => artifacts.filter (artifactPasses f)
      | none => artifacts) with
    | [] => Except.error ResolveError.noMatch
    | a :: rest => if rest ≠ [] then Except.error ResolveError.ambiguousMatch
                   else Except.ok a.fileName) = _
  rw [hf]
  rcases artifacts.filter (specFilterKeeps filter) with _ | ⟨a, _ | ⟨b, rest⟩⟩ <;> simp

/-- C2 counterexample: the source computes the binary check from
`target.crate_types`, not `target.kind` (cargo.ts line 145), and even
when the claimed condition holds a message whose `executable` field is
`null` contributes no artifact (cargo.ts line 149).  First message: kind
list contains "bin" (and no "custom-build") yet nothing is collected,
because `crate_types` lacks "bin".  Second message: kind and
crate_types both contain "bin", yet nothing is collected, because
`executable` is `null`. -/
theorem artifactCollection_kind_counterexample :
    ((["bin"] : List String).contains "bin" = true ∧
     (["bin"] : List String).contains "custom-build" = false ∧
     artifactMessageArtifacts ⟨⟨"foo", ["bin"], ["rlib"]⟩, ⟨false⟩, .exe "/t/debug/foo"⟩ = []) ∧
    (artifactMessageArtifacts ⟨⟨"bar", ["bin"], ["bin"]⟩, ⟨false⟩, .exeNull⟩ = []) := by
  decide

/-- C2 amended: an artifact is collected only if (the target's
`crate_types` list contains "bin" and its kind list does not contain
"custom-build") or the profile marks a test build; when that condition
holds and the message carries a non-null `executable`, exactly one
artifact is collected; messages with any other reason contribute no
artifacts. -/
theorem artifactCollection_condition (m : ArtifactMessage) :
    (artifactMessageArtifacts m ≠ [] →
      ((m.target.crate_types.contains "bin" = true ∧
        m.target.kind.contains "custom-build" = false) ∨ m.profile.test = true)) ∧
    (∀ p, m.executable = .exe p →
      ((m.target.crate_types.contains "bin" = true ∧
        m.target.kind.contains "custom-build" = false) ∨ m.profile.test = true) →
      artifactMessageArtifacts m = [⟨p, m.target.name, m.target.kind.get? 0⟩]) ∧
    (∀ r, messageArtifacts (.compilerMessage r) = []) ∧
    messageArtifacts .otherReason = [] := by
  refine ⟨?_, ?_, fun r => rfl, rfl⟩
  · intro hne
    rcases Bool.eq_false_or_eq_true (m.target.crate_types.contains "bin") with h1 | h1 <;>
      rcases Bool.eq_false_or_eq_true (m.target.kind.contains "custom-build") with h2 | h2 <;>
      rcases Bool.eq_false_or_eq_true m.profile.test with h3 | h3 <;>
      simp_all [artifactMessageArtifacts]
  · intro p hexe hcond
    rcases Bool.eq_false_or_eq_true (m.target.crate_types.contains "bin") with h1 | h1 <;>
      rcases Bool.eq_false_or_eq_true (m.target.kind.contains "custom-build") with h2 | h2 <;>
      rcases Bool.eq_false_or_eq_true m.profile.test with h3 | h3 <;>
      simp_all [artifactMessageArtifacts]

/-- C2 amended witness at a concrete message. -/
theorem artifactCollection_condition_witness :
    artifactMessageArtifacts ⟨⟨"foo", ["bin"], ["bin"]⟩, ⟨false⟩, .exe "/t/debug/foo"⟩ =
      [⟨"/t/debug/foo", "foo", (["bin"] : List String).get? 0⟩] :=
  (artifactCollection_condition ⟨⟨"foo", ["bin"], ["bin"]⟩, ⟨false⟩, .exe "/t/debug/foo"⟩).2.1
    "/t/debug/foo" rfl (by simp)

theorem oldSchemaArtifacts_eq_enumFrom (tname : String) (kinds : List String)
    (i : Nat) (files : List String) :
    oldSchemaArtifacts tname kinds i files =
      (files.enumFrom i).filterMap (fun p =>
        if strEndsWith p.2 ".dSYM" then none
        else some ⟨p.2, tname, kinds.get? p.1⟩) := by
  induction files generalizing i with
  | nil => rfl
  | cons f fs ih =>
    rcases Bool.eq_false_or_eq_true (strEndsWith f ".dSYM") with h | h <;>
      simp [oldSchemaArtifacts, List.enumFrom, ih, h]

/-- C5: for an old-schema compiler-artifact message passing the
collection condition, one artifact is emitted per `filenames` entry
paired with the kind at the same index, except that an entry whose path
ends in `.dSYM` is never emitted, regardless of its paired kind. -/
theorem oldSchema_artifact_emission (m : ArtifactMessage) (files : List String)
    (hexe : m.executable = .filenames files)
    (hcond : ((m.target.crate_types.contains "bin" &&
      !m.target.kind.contains "custom-build") || m.profile.test) = true) :
    artifactMessageArtifacts m =
      files.enum.filterMap (fun p =>
        if strEndsWith p.2 ".dSYM" then none
        else some ⟨p.2, m.target.name, m.target.kind.get? p.1⟩) ∧
    ∀ a ∈ artifactMessageArtifacts m, strEndsWith a.fileName ".dSYM" = false := by
  have hmain : artifactMessageArtifacts m =
      files.enum.filterMap (fun p =>
        if strEndsWith p.2 ".dSYM" then none
        else some ⟨p.2, m.target.name, m.target.kind.get? p.1⟩) := by
    rw [show files.enum = files.enumFrom 0 from rfl, ← oldSchemaArtifacts_eq_enumFrom]
    rcases Bool.eq_false_or_eq_true (m.target.crate_types.contains "bin") with h1 | h1 <;>
      rcases Bool.eq_false_or_eq_true (m.target.kind.contains "custom-build") with h2 | h2 <;>
      rcases Bool.eq_false_or_eq_true m.profile.test with h3 | h3 <;>
      simp_all [artifactMessageArtifacts]
  refine ⟨hmain, ?_⟩
  intro a ha
  rw [hmain] at ha
  rcases List.mem_filterMap.mp ha with ⟨p, -, hp⟩
  by_cases h : strEndsWith p.2 ".dSYM" = true
  · rw [if_pos h] at hp
    cases hp
  · rw [if_neg h] at hp
    cases hp
    simpa using h

/-- C3 counterexample: a stdout line that does not begin with an open
brace is silently discarded by the line handler — it is not forwarded to
any callback, contradicting the claim that it is forwarded unmodified to
the diagnostic callback. -/
theorem plain_line_discarded_counterexample :
    strStartsWith "warning: unused variable" "\x7b" = false ∧
    lineCallbacks (fun _ => none) "warning: unused variable" = [] ∧
    lineCallbacks (fun _ => none) "warning: unused variable" ≠
      [.diagnostic "warning: unused variable"] := by
  refine ⟨by decide, rfl, ?_⟩
  intro h
  cases h

/-- C3 amended: a raw stdout line that does not begin with the open
brace character is silently discarded — it is not parsed and is not
forwarded to any callback. -/
theorem plain_line_discarded (parse : String → Option CargoMessage) (line : String)
    (h : strStartsWith line "\x7b" = false) :
    lineCallbacks parse line = [] ∧ lineJson parse line = none := by
  constructor <;> simp [lineCallbacks, lineJson, h]

/-- C3 amended witness at a concrete line. -/
theorem plain_line_discarded_witness :
    lineCallbacks (fun _ => some .otherReason) "Compiling foo v0.1.0" = [] ∧
    lineJson (fun _ => some .otherReason) "Compiling foo v0.1.0" = none :=
  plain_line_discarded (fun _ => some .otherReason) "Compiling foo v0.1.0" (by decide)

/-- C8: a stdout line that begins with an open brace but fails to parse
is recovered locally — it produces no callback (the failure is only
logged), and the stream of parsed messages, and hence the list of
collected artifacts, is the same as if the malformed line were absent,
so every subsequent valid structured message is still processed. -/
theorem malformed_json_line_recovered (parse : String → Option CargoMessage)
    (pre post : List String) (bad : String)
    (h1 : strStartsWith bad "\x7b" = true) (h2 : parse bad = none) :
    stdoutJsonMessages parse (pre ++ bad :: post) = stdoutJsonMessages parse (pre ++ post) ∧
    collectArtifacts (stdoutJsonMessages parse (pre ++ bad :: post)) =
      collectArtifacts (stdoutJsonMessages parse (pre ++ post)) ∧
    lineCallbacks parse bad = [] := by
  have hnil : lineJson parse bad = none := by simp [lineJson, h1, h2]
  have hmsgs : stdoutJsonMessages parse (pre ++ bad :: post) =
      stdoutJsonMessages parse (pre ++ post) := by
    simp [stdoutJsonMessages, List.filterMap_append, List.filterMap_cons, hnil]
  exact ⟨hmsgs, by rw [hmsgs], by simp [lineCallbacks, h1, h2]⟩

/-- C8 witness: a malformed brace-prefixed line interleaved before a
valid compiler-artifact message does not prevent that message's artifact
from being collected. -/
theorem malformed_json_line_recovered_witness :
    stdoutJsonMessages
        (fun s => if s = "\x7bgood\x7d"
          then some (.compilerArtifact ⟨⟨"foo", ["bin"], ["bin"]⟩, ⟨false⟩, .exe "/t/foo"⟩)
          else none)
        ["\x7bbad", "\x7bgood\x7d"] =
      stdoutJsonMessages
        (fun s => if s = "\x7bgood\x7d"
          then some (.compilerArtifact ⟨⟨"foo", ["bin"], ["bin"]⟩, ⟨false⟩, .exe "/t/foo"⟩)
          else none)
        ["\x7bgood\x7d"] :=
  (malformed_json_line_recovered
    (fun s => if s = "\x7bgood\x7d"
      then some (.compilerArtifact ⟨⟨"foo", ["bin"], ["bin"]⟩, ⟨false⟩, .exe "/t/foo"⟩)
      else none)
    [] ["\x7bgood\x7d"] "\x7bbad" (by decide) (by simp)).1

theorem jsIndexOfAux_none (x : String) (l : List String) (i : Nat) (h : x ∉ l) :
    jsIndexOfAux x l i = none := by
  induction l generalizing i with
  | nil => rfl
  | cons a as ih =>
    have hax : (a == x) = false := by
      simp only [List.mem_cons, not_or] at h
      simp [Ne.symm h.1]
    simp only [jsIndexOfAux, hax, Bool.false_eq_true, if_false]
    exact ih (i + 1) (fun hm => h (List.mem_cons_of_mem a hm))

theorem jsIndexOfAux_append (x : String) (pre post : List String) (i : Nat)
    (h : x ∉ pre) :
    jsIndexOfAux x (pre ++ x :: post) i = some (i + pre.length) := by
  induction pre generalizing i with
  | nil => simp [jsIndexOfAux]
  | cons a as ih =>
    have hax : (a == x) = false := by
      simp only [List.mem_cons, not_or] at h
      simp [Ne.symm h.1]
    have hih := ih (i + 1) (fun hm => h (List.mem_cons_of_mem a hm))
    simp only [List.cons_append, jsIndexOfAux, hax, Bool.false_eq_true, if_false,
      List.append_eq, hih, List.length_cons, Option.some.injEq]
    omega

/-- C9 counterexample: the two flags are not inserted on a copy — the
splice mutates the caller's array in place, so after `open` has run the
caller's argument list (`taskDef.args`) is no longer its original
value. -/
theorem insert_flags_mutation_counterexample :
    (openStep ["build"]).taskArgsFinal =
      ["build", "--message-format=json", "--color=always"] ∧
    (openStep ["build"]).taskArgsFinal ≠ ["build"] := by
  constructor
  · rfl
  · intro h
    cases h

/-- C9 amended: the argument list actually run is the caller's list
with `--message-format=json` and `--color=always` inserted immediately
before the first `--` argument if one exists, otherwise appended at the
end; but the insertion happens in place on the caller's array (through
the alias `cargoArgs`), so the caller's argument list ends up equal to
the list actually run, rather than being left unmodified. -/
theorem insert_flags_placement (args : List String) :
    ("--" ∉ args →
      (openStep args).argsPassedToGetCargoArtifacts =
        args ++ ["--message-format=json", "--color=always"]) ∧
    (∀ preA postA, args = preA ++ "--" :: postA → "--" ∉ preA →
      (openStep args).argsPassedToGetCargoArtifacts =
        preA ++ ["--message-format=json", "--color=always"] ++ "--" :: postA) ∧
    (openStep args).taskArgsFinal = (openStep args).argsPassedToGetCargoArtifacts := by
  refine ⟨?_, ?_, rfl⟩
  · intro h
    simp [openStep, insertCargoFlags, jsIndexOfAux_none "--" args 0 h,
      List.take_length, List.drop_length]
  · intro preA postA heq hpre
    subst heq
    have hidx := jsIndexOfAux_append "--" preA postA 0 hpre
    simp only [openStep, insertCargoFlags, hidx, Option.getD_some, Nat.zero_add]
    rw [List.take_left, List.drop_left]

/-- C9 amended witness at a concrete argument list containing `--`. -/
theorem insert_flags_placement_witness :
    (openStep ["build", "--", "-v"]).argsPassedToGetCargoArtifacts =
      ["build"] ++ ["--message-format=json", "--color=always"] ++ "--" :: ["-v"] :=
  (insert_flags_placement ["build", "--", "-v"]).2.1 ["build"] ["-v"] rfl (by decide)

/-- C5 witness at a concrete message: the `.dSYM` entry is skipped and
the remaining file is paired with the kind at its index. -/
theorem oldSchema_artifact_emission_witness :
    artifactMessageArtifacts
        ⟨⟨"foo", ["bin", "dylib"], ["bin"]⟩, ⟨false⟩,
          .filenames ["/t/foo", "/t/foo.dSYM"]⟩ =
      (["/t/foo", "/t/foo.dSYM"].enum.filterMap (fun p =>
        if strEndsWith p.2 ".dSYM" then none
        else some ⟨p.2, "foo", (["bin", "dylib"] : List String).get? p.1⟩)) :=
  (oldSchema_artifact_emission
    ⟨⟨"foo", ["bin", "dylib"], ["bin"]⟩, ⟨false⟩, .filenames ["/t/foo", "/t/foo.dSYM"]⟩
    ["/t/foo", "/t/foo.dSYM"] rfl (by decide)).1

/-- C4: enumerating launch configurations never fails when the build
tool is unavailable or the project has no manifest — an `ENOENT` spawn
failure or a non-zero exit code yields exactly the single built-in
default descriptor set — but a zero exit with no metadata payload fails
with the metadata error. -/
theorem getLaunchConfigs_fallback (directory : Option String) (ec : Int)
    (metadata : Option CargoMetadata) :
    getLaunchConfigs (.spawnFailure "ENOENT") directory = .ok DEFAULT_LAUNCH_CONFIGS ∧
    (ec ≠ 0 →
      getLaunchConfigs (.exited (some ec) metadata) directory = .ok DEFAULT_LAUNCH_CONFIGS) ∧
    getLaunchConfigs (.exited (some 0) none) directory = .error .noMetadata ∧
    DEFAULT_LAUNCH_CONFIGS.length = 1 := by
  refine ⟨rfl, ?_, rfl, rfl⟩
  intro h
  simp [getLaunchConfigs, h]

/-- C4 witness: a non-zero exit code at a concrete input. -/
theorem getLaunchConfigs_fallback_witness :
    getLaunchConfigs (.exited (some 101) none) none = .ok DEFAULT_LAUNCH_CONFIGS :=
  (getLaunchConfigs_fallback none 101 none).2.1 (by decide)

theorem configsForKind_flag (pkgName : String) (directory : Option String)
    (targetName kind : String) (libAdded : Bool) :
    (configsForKind pkgName directory targetName kind libAdded).2 =
      (libAdded || isLibKind kind) := by
  rcases Bool.eq_false_or_eq_true (isLibKind kind) with h1 | h1
  · cases libAdded <;> simp [configsForKind, h1]
  · by_cases h2 : kind = "bin" ∨ kind = "example"
    · cases libAdded <;> simp [configsForKind, h1, h2]
    · by_cases h3 : kind = "bench" ∨ kind = "test"
      · cases libAdded <;> simp [configsForKind, h1, h2, h3]
      · cases libAdded <;> simp [configsForKind, h1, h2, h3]

theorem countP_configsForKind (pkgName : String) (directory : Option String)
    (targetName kind : String) (libAdded : Bool) :
    ((configsForKind pkgName directory targetName kind libAdded).1.countP
        isLibraryTestDescriptor) =
      if isLibKind kind && !libAdded then 1 else 0 := by
  rcases Bool.eq_false_or_eq_true (isLibKind kind) with h1 | h1
  · cases libAdded <;>
      simp [configsForKind, h1, libTestConfig, addConfig, isLibraryTestDescriptor,
        List.countP_cons]
  · by_cases h2 : kind = "bin" ∨ kind = "example"
    · rcases h2 with h | h <;> subst h <;> cases libAdded <;>
        simp [configsForKind, h1, addConfig, isLibraryTestDescriptor, List.countP_cons]
    · by_cases h3 : kind = "bench" ∨ kind = "test"
      · rcases h3 with h | h <;> subst h <;> cases libAdded <;>
          simp [configsForKind, h1, h2, addConfig, isLibraryTestDescriptor,
            List.countP_cons]
      · cases libAdded <;> simp [configsForKind, h1, h2, h3]

theorem countP_targetConfigsAux (pkgName : String) (directory : Option String)
    (targetName : String) (kinds : List String) (libAdded : Bool) :
    (targetConfigsAux pkgName directory targetName kinds libAdded).countP
        isLibraryTestDescriptor =
      if libAdded then 0 else if kinds.any isLibKind then 1 else 0 := by
  induction kinds generalizing libAdded with
  | nil => cases libAdded <;> simp [targetConfigsAux]
  | cons k ks ih =>
    rcases Bool.eq_false_or_eq_true (isLibKind k) with hk | hk <;> cases libAdded <;>
      simp [targetConfigsAux, List.countP_append, countP_configsForKind,
        configsForKind_flag, ih, hk, List.any_cons]

theorem libTestConfig_mem_targetConfigsAux (pkgName : String) (directory : Option String)
    (targetName : String) (kinds : List String) (h : kinds.any isLibKind = true) :
    libTestConfig pkgName directory targetName ∈
      targetConfigsAux pkgName directory targetName kinds false := by
  induction kinds with
  | nil => simp at h
  | cons k ks ih =>
    rcases Bool.eq_false_or_eq_true (isLibKind k) with hk | hk
    · simp [targetConfigsAux, configsForKind, hk]
    · have hany : ks.any isLibKind = true := by
        rw [List.any_cons, hk, Bool.false_or] at h
        exact h
      refine List.mem_append.mpr (Or.inr ?_)
      rw [configsForKind_flag, hk, Bool.or_false]
      exact ih hany

/-- C6: a target whose kind list contains at least one library-family
kind (lib, rlib, staticlib, dylib, cstaticlib) gets exactly one
library-unit-test descriptor, namely the one produced when the first
such kind is seen; subsequent library kinds on the same target produce
no further descriptor. -/
theorem library_descriptor_unique (pkgName : String) (directory : Option String)
    (targetName : String) (kinds : List String) (h : kinds.any isLibKind = true) :
    (targetConfigs pkgName directory targetName kinds).countP isLibraryTestDescriptor = 1 ∧
    libTestConfig pkgName directory targetName ∈
      targetConfigs pkgName directory targetName kinds := by
  refine ⟨?_, libTestConfig_mem_targetConfigsAux pkgName directory targetName kinds h⟩
  rw [targetConfigs, countP_targetConfigsAux]
  simp [h]

/-- C6 witness: a target declaring both `lib` and `staticlib` gets
exactly one library-unit-test descriptor. -/
theorem library_descriptor_unique_witness :
    (targetConfigs "demo" none "demo" ["lib", "staticlib"]).countP
      isLibraryTestDescriptor = 1 :=
  (library_descriptor_unique "demo" none "demo" ["lib", "staticlib"] (by decide)).1

/-- C7: a target whose kind list is exactly ["bin"] gets exactly two
descriptors — "Debug executable <name>" building the target directly
and "Debug unit tests in executable <name>" building its unit tests —
and the kind label renders "bin" as "executable" while "example" is
left as-is. -/
theorem bin_target_descriptors (pkgName : String) (directory : Option String)
    (targetName : String) :
    targetConfigs pkgName directory targetName ["bin"] =
      [addConfig pkgName directory ("Debug executable \x27" ++ targetName ++ "\x27")
         ["build", "--bin=" ++ targetName] ⟨some targetName, some "bin"⟩,
       addConfig pkgName directory
         ("Debug unit tests in executable \x27" ++ targetName ++ "\x27")
         ["test", "--no-run", "--bin=" ++ targetName] ⟨some targetName, some "bin"⟩] ∧
    prettyBinExampleKind "bin" = "executable" ∧
    prettyBinExampleKind "example" = "example" := by
  refine ⟨?_, rfl, rfl⟩
  rfl

/-- C10: any library-family kind triggers the same descriptor as the
kind "lib" itself: the artifact filter has kind "lib", and the build
arguments are always ["test", "--no-run", "--lib"] (followed by the
package-selection argument appended to every descriptor), even when the
triggering kind was rlib, staticlib, dylib or cstaticlib. -/
theorem library_kind_descriptor_uniform (pkgName : String) (directory : Option String)
    (targetName kind : String) (h : isLibKind kind = true) :
    configsForKind pkgName directory targetName kind false =
      configsForKind pkgName directory targetName "lib" false ∧
    (configsForKind pkgName directory targetName kind false).1 =
      [addConfig pkgName directory
        ("Debug unit tests in library \x27" ++ targetName ++ "\x27")
        (["test", "--no-run", "--lib"]) ⟨some targetName, some "lib"⟩] ∧
    ∀ c ∈ (configsForKind pkgName directory targetName kind false).1,
      c.cargo = some ⟨["test", "--no-run", "--lib"] ++ ["--package=" ++ pkgName],
        ⟨some targetName, some "lib"⟩, directory⟩ := by
  refine ⟨?_, ?_, ?_⟩
  · simp [configsForKind, h, show isLibKind "lib" = true from by decide]
  · simp [configsForKind, h, libTestConfig]
  · intro c hc
    simp [configsForKind, h, libTestConfig] at hc
    subst hc
    rfl

/-- C10 witness: the `staticlib` kind produces the `--lib` descriptor. -/
theorem library_kind_descriptor_uniform_witness :
    (configsForKind "demo" none "demo" "staticlib" false).1 =
      [addConfig "demo" none ("Debug unit tests in library \x27" ++ "demo" ++ "\x27")
        (["test", "--no-run", "--lib"]) ⟨some "demo", some "lib"⟩] :=
  (library_kind_descriptor_uniform "demo" none "demo" "staticlib" (by decide)).2.1
